import Mathlib

/-!
Shallow embedding of the transformation pipeline of the
`ecommerce-data-pipeline` repository: the staging→production cleansing
stage (`scripts/transformation/staging_to_production.py`) and the
production→warehouse star-schema load
(`scripts/transformation/load_warehouse.py`).

Conventions of the embedding:
* SQL tables are Lean lists of structure values; a bulk `to_sql(...,
  if_exists="append")` is list append, `TRUNCATE` replaces the list by `[]`.
* calendar dates are serial day numbers (days since 1970-01-01); the
  Gregorian field extraction mirrors the standard civil-from-days
  algorithm, and `pyWeekday` matches Python's `date.weekday()`
  (Monday = 0 … Sunday = 6, day 0 = 1970-01-01 was a Thursday).
* nullable SQL text columns are `Option String`; numeric columns are `Rat`.
* the single enclosing database transaction of each stage
  (`with engine.begin() as conn`) is modelled by `runStageTx`: the stage
  body is a list of state-transforming writes, an unhandled error at any
  write aborts the whole list and the committed state is unchanged.
-/

namespace ETL

/-! ### Calendar model -/

/-- Gregorian (year, month, day) of a serial day number, serial day 0 being
1970-01-01 (civil-from-days algorithm, truncating integer division). -/
def civilFromDays (z0 : Int) : Int × Int × Int :=
  let z : Int := z0 + 719468
  let era : Int := (if 0 ≤ z then z else z - 146096) / 146097
  let doe : Int := z - era * 146097
  let yoe : Int := (doe - doe / 1460 + doe / 36524 - doe / 146096) / 365
  let y : Int := yoe + era * 400
  let doy : Int := doe - (365 * yoe + yoe / 4 - yoe / 100)
  let mp : Int := (5 * doy + 2) / 153
  let d : Int := doy - (153 * mp + 2) / 5 + 1
  let m : Int := mp + (if mp < 10 then 3 else -9)
  (y + (if m ≤ 2 then 1 else 0), m, d)

/-- Serial day number of a Gregorian date (inverse of `civilFromDays`). -/
def daysFromCivil (y m d : Int) : Int :=
  let y' : Int := y - (if m ≤ 2 then 1 else 0)
  let era : Int := (if 0 ≤ y' then y' else y' - 399) / 400
  let yoe : Int := y' - era * 400
  let doy : Int := (153 * (m + (if 2 < m then -3 else 9)) + 2) / 5 + d - 1
  let doe : Int := yoe * 365 + yoe / 4 - yoe / 100 + doy
  era * 146097 + doe - 719468

def yearOf (z : Int) : Int := (civilFromDays z).1

def monthOf (z : Int) : Int := (civilFromDays z).2.1

def dayOf (z : Int) : Int := (civilFromDays z).2.2

/-- Python's `date.weekday()`: Monday = 0 … Sunday = 6. -/
def pyWeekday (z : Int) : Int := (z + 3) % 7

def dayNames : List String :=
  ["Monday", "Tuesday", "Wednesday", "Thursday", "Friday", "Saturday", "Sunday"]

def monthNames : List String :=
  ["January", "February", "March", "April", "May", "June",
   "July", "August", "September", "October", "November", "December"]

/-- `strftime("%A")`. -/
def dayNameOf (z : Int) : String := dayNames.getD (pyWeekday z).toNat ""

/-- `strftime("%B")`. -/
def monthNameOf (z : Int) : String := monthNames.getD (monthOf z - 1).toNat ""

/-- `int(strftime("%Y%m%d"))`. -/
def dateKeyOf (z : Int) : Int := yearOf z * 10000 + monthOf z * 100 + dayOf z

/-- Ordinal day within the year (Jan 1 = 1). -/
def dayOfYear (z : Int) : Int := z - daysFromCivil (yearOf z) 1 1 + 1

/-- `date.isocalendar()[1]`: ISO-8601 week number, via the Thursday of the
ISO week containing `z`. -/
def isoWeekOf (z : Int) : Int :=
  let thursday : Int := z - pyWeekday z + 3
  (dayOfYear thursday - 1) / 7 + 1

/-! ### Cleansing helper functions (`staging_to_production.py`) -/

/-- `clean_text`: `None` for SQL null, else `str(val).strip()`. -/
def clean_text (val : Option String) : Option String :=
  match val with
  | none => none
  | some s => some s.trim

/-- `clean_email`: `clean_text(email).lower() if email else None`
(both `None` and the empty string are falsy in Python). -/
def clean_email (email : Option String) : Option String :=
  match email with
  | none => none
  | some s => if s = "" then none else (clean_text (some s)).map String.toLower

/-! ### Row types -/

structure StagingCustomer where
  customer_id : String
  first_name : Option String
  last_name : Option String
  email : Option String
  phone : Option String
  registration_date : Int
  city : Option String
  state : Option String
  country : Option String
  age_group : Option String
  loaded_at : Int
deriving DecidableEq

structure ProductionCustomer where
  customer_id : String
  first_name : Option String
  last_name : Option String
  email : Option String
  phone : Option String
  registration_date : Int
  city : Option String
  state : Option String
  country : Option String
  age_group : Option String
deriving DecidableEq

structure StagingProduct where
  product_id : String
  product_name : String
  category : String
  sub_category : String
  price : Rat
  cost : Rat
  brand : String
  stock_quantity : Int
  supplier_id : String
  loaded_at : Int
deriving DecidableEq

structure ProductionProduct where
  product_id : String
  product_name : String
  category : String
  sub_category : String
  price : Rat
  cost : Rat
  brand : String
  stock_quantity : Int
  supplier_id : String
deriving DecidableEq

structure StagingTransaction where
  transaction_id : String
  customer_id : String
  transaction_date : Int
  transaction_time : String
  payment_method : String
  shipping_address : String
  total_amount : Rat
  loaded_at : Int
deriving DecidableEq

structure ProductionTransaction where
  transaction_id : String
  customer_id : String
  transaction_date : Int
  transaction_time : String
  payment_method : String
  shipping_address : String
  total_amount : Rat
deriving DecidableEq

structure StagingTransactionItem where
  item_id : String
  transaction_id : String
  product_id : String
  quantity : Rat
  unit_price : Rat
  discount_percentage : Rat
  line_total : Rat
  loaded_at : Int
deriving DecidableEq

structure ProductionTransactionItem where
  item_id : String
  transaction_id : String
  product_id : String
  quantity : Rat
  unit_price : Rat
  discount_percentage : Rat
  line_total : Rat
deriving DecidableEq

/-! ### Warehouse row types (`load_warehouse.py`) -/

structure DimDateRow where
  date_key : Int
  full_date : Int
  year : Int
  quarter : Int
  month : Int
  day : Int
  month_name : String
  day_name : String
  week_of_year : Int
  is_weekend : Bool
deriving DecidableEq

structure DimPaymentMethodRow where
  payment_method_key : Nat
  payment_method_name : String
  payment_type : String
deriving DecidableEq

structure DimCustomerRow where
  customer_key : Nat
  customer_id : String
  full_name : Option String
  email : Option String
  city : Option String
  state : Option String
  country : Option String
  age_group : Option String
  registration_date : Int
  effective_date : Int
  end_date : Option Int
  is_current : Bool
deriving DecidableEq

structure DimProductRow where
  product_key : Nat
  product_id : String
  product_name : String
  category : String
  sub_category : String
  brand : String
  price_range : String
  effective_date : Int
  end_date : Option Int
  is_current : Bool
deriving DecidableEq

structure FactSalesRow where
  date_key : Int
  customer_key : Nat
  product_key : Nat
  payment_method_key : Nat
  transaction_id : String
  quantity : Rat
  unit_price : Rat
  discount_amount : Rat
  line_total : Rat
  profit : Rat
deriving DecidableEq

structure AggDailySalesRow where
  date_key : Int
  total_transactions : Nat
  total_revenue : Rat
  total_profit : Rat
  unique_customers : Nat
deriving DecidableEq

/-! ### Database state -/

structure StagingDB where
  customers : List StagingCustomer
  products : List StagingProduct
  transactions : List StagingTransaction
  transaction_items : List StagingTransactionItem
deriving DecidableEq

structure ProductionDB where
  customers : List ProductionCustomer
  products : List ProductionProduct
  transactions : List ProductionTransaction
  transaction_items : List ProductionTransactionItem
deriving DecidableEq

structure WarehouseDB where
  dim_date : List DimDateRow
  dim_payment_method : List DimPaymentMethodRow
  dim_customers : List DimCustomerRow
  dim_products : List DimProductRow
  fact_sales : List FactSalesRow
  agg_daily_sales : List AggDailySalesRow
deriving DecidableEq

structure Database where
  staging : StagingDB
  production : ProductionDB
  warehouse : WarehouseDB
deriving DecidableEq

/-! ### Transaction semantics

Each ETL stage wraps its whole body in `with engine.begin() as conn:`; the
writes run sequentially inside one database transaction, and an unhandled
error anywhere aborts the transaction, restoring the committed state.
`execTx` threads a working state through the list of writes; `errStep`
injects an unhandled store error right before the write of that index. -/

def execTx {σ : Type} (committed : σ) : σ → List (σ → σ) → Nat → Option Nat → σ
  | working, [], _, _ => working
  | working, w :: rest, i, errStep =>
    if errStep = some i then committed
    else execTx committed (w working) rest (i + 1) errStep

/-- Run a stage body (a list of writes) as one database transaction starting
from committed state `s`; if `errStep` injects an error at a write index the
transaction aborts and the committed state is returned unchanged. -/
def runStageTx {σ : Type} (s : σ) (ws : List (σ → σ)) (errStep : Option Nat) : σ :=
  execTx s s ws 0 errStep

/-! ### Cleansing & Validation Stage (`staging_to_production.py  main`) -/

/-- Per-row normalization of a staging customer: `clean_text` on
`first_name`/`last_name`, `clean_email` on `email`, drop `loaded_at`. -/
def cleanseCustomer (c : StagingCustomer) : ProductionCustomer :=
  { customer_id := c.customer_id
    first_name := clean_text c.first_name
    last_name := clean_text c.last_name
    email := clean_email c.email
    phone := c.phone
    registration_date := c.registration_date
    city := c.city
    state := c.state
    country := c.country
    age_group := c.age_group }

def cleanseCustomers (l : List StagingCustomer) : List ProductionCustomer :=
  l.map cleanseCustomer

def toProductionProduct (p : StagingProduct) : ProductionProduct :=
  { product_id := p.product_id
    product_name := p.product_name
    category := p.category
    sub_category := p.sub_category
    price := p.price
    cost := p.cost
    brand := p.brand
    stock_quantity := p.stock_quantity
    supplier_id := p.supplier_id }

/-- `products[products["price"] > 0]` then `products[products["cost"] <
products["price"]]`, then drop `loaded_at`. -/
def cleanseProducts (l : List StagingProduct) : List ProductionProduct :=
  (((l.filter fun p => decide (0 < p.price)).filter
      fun p => decide (p.cost < p.price)).map toProductionProduct)

def toProductionTransaction (t : StagingTransaction) : ProductionTransaction :=
  { transaction_id := t.transaction_id
    customer_id := t.customer_id
    transaction_date := t.transaction_date
    transaction_time := t.transaction_time
    payment_method := t.payment_method
    shipping_address := t.shipping_address
    total_amount := t.total_amount }

/-- Append-only merge for transactions: keep staging rows with
`total_amount > 0` whose `transaction_id` is not among the existing
production keys, then drop `loaded_at`. -/
def keptTransactions (stg : List StagingTransaction)
    (existing : List ProductionTransaction) : List ProductionTransaction :=
  (((stg.filter fun t => decide (0 < t.total_amount)).filter
      fun t =>
        decide (t.transaction_id ∉
          existing.map ProductionTransaction.transaction_id)).map
    toProductionTransaction)

def toProductionItem (it : StagingTransactionItem) : ProductionTransactionItem :=
  { item_id := it.item_id
    transaction_id := it.transaction_id
    product_id := it.product_id
    quantity := it.quantity
    unit_price := it.unit_price
    discount_percentage := it.discount_percentage
    line_total := it.line_total }

/-- Append-only merge for transaction items: keep staging rows with
`quantity > 0` whose `item_id` is not among the existing production keys. -/
def keptItems (stg : List StagingTransactionItem)
    (existing : List ProductionTransactionItem) : List ProductionTransactionItem :=
  (((stg.filter fun it => decide (0 < it.quantity)).filter
      fun it =>
        decide (it.item_id ∉
          existing.map ProductionTransactionItem.item_id)).map
    toProductionItem)

/-- The write sequence of the cleansing stage, in program order:
truncate+reload customers, truncate+reload products, append-only insert of
transactions, append-only insert of transaction items. Each write reads the
current in-transaction state, as the script reads through the same `conn`. -/
def cleansingWrites : List (Database → Database) :=
  [ fun db => { db with production.customers := [] },
    fun db =>
      { db with production.customers :=
          db.production.customers ++ cleanseCustomers db.staging.customers },
    fun db => { db with production.products := [] },
    fun db =>
      { db with production.products :=
          db.production.products ++ cleanseProducts db.staging.products },
    fun db =>
      { db with production.transactions :=
          db.production.transactions ++
            keptTransactions db.staging.transactions db.production.transactions },
    fun db =>
      { db with production.transaction_items :=
          db.production.transaction_items ++
            keptItems db.staging.transaction_items db.production.transaction_items } ]

/-- One run of the cleansing stage (no injected error). -/
def runCleansing (db : Database) : Database :=
  runStageTx db cleansingWrites none

/-! ### Cleansing-stage run summary

The script records, per table, `input`, `output`, `filtered` — all computed
from the already-filtered dataframe (`len(products)` after the row filters),
with `filtered` hard-coded to `0`. -/

structure TableSummary where
  input : Nat
  output : Nat
  filtered : Nat
deriving DecidableEq

structure CleansingSummary where
  customers : TableSummary
  products : TableSummary
  transactions : TableSummary
  transaction_items : TableSummary
deriving DecidableEq

/-- The `records_processed` block of `transformation_summary.json`, exactly
as the script computes it (lengths measured after filtering, `filtered := 0`). -/
def cleansingSummary (stg : StagingDB) (prodBefore : ProductionDB) : CleansingSummary :=
  let custs := cleanseCustomers stg.customers
  let prods := cleanseProducts stg.products
  let txns := keptTransactions stg.transactions prodBefore.transactions
  let its := keptItems stg.transaction_items prodBefore.transaction_items
  { customers := { input := custs.length, output := custs.length, filtered := 0 }
    products := { input := prods.length, output := prods.length, filtered := 0 }
    transactions := { input := txns.length, output := txns.length, filtered := 0 }
    transaction_items := { input := its.length, output := its.length, filtered := 0 } }

/-! ### Warehouse load (`load_warehouse.py`) -/

/-- One row of `build_dim_date`'s `dates` list for the day `z`. -/
def dimDateRow (z : Int) : DimDateRow :=
  { date_key := dateKeyOf z
    full_date := z
    year := yearOf z
    quarter := (monthOf z - 1) / 3 + 1
    month := monthOf z
    day := dayOf z
    month_name := monthNameOf z
    day_name := dayNameOf z
    week_of_year := isoWeekOf z
    is_weekend := decide (5 ≤ pyWeekday z) }

/-- The `while current <= end_date` loop of `build_dim_date`, with explicit
fuel (the loop advances `current` by one day per iteration). -/
def buildDimDateLoop : Nat → Int → Int → List DimDateRow
  | 0, _, _ => []
  | fuel + 1, current, endDate =>
    if current ≤ endDate then
      dimDateRow current :: buildDimDateLoop fuel (current + 1) endDate
    else []

/-- `build_dim_date(start_date, end_date)`: one row per day while
`current <= end_date`. -/
def buildDimDate (startDate endDate : Int) : List DimDateRow :=
  buildDimDateLoop (endDate - startDate + 1).toNat startDate endDate

/-- First-occurrence distinct values, modelling `SELECT DISTINCT`. -/
def distinctAux {α : Type} [DecidableEq α] (seen : List α) : List α → List α
  | [] => []
  | x :: xs =>
    if x ∈ seen then distinctAux seen xs else x :: distinctAux (x :: seen) xs

def distinct {α : Type} [DecidableEq α] (l : List α) : List α :=
  distinctAux [] l

/-- Pair each list element with a serial key starting at `start`, modelling
the serial surrogate keys the store assigns at insert time. -/
def withKeys {α : Type} (start : Nat) : List α → List (Nat × α)
  | [] => []
  | x :: xs => (start, x) :: withKeys (start + 1) xs

/-- Dimension build for payment methods: `SELECT DISTINCT payment_method`,
derive `payment_type`, serial keys from `firstKey`. -/
def dimPaymentMethods (firstKey : Nat) (prod : ProductionDB) :
    List DimPaymentMethodRow :=
  (withKeys firstKey
      (distinct (prod.transactions.map ProductionTransaction.payment_method))).map
    fun km =>
      { payment_method_key := km.1
        payment_method_name := km.2
        payment_type := if km.2 = "Cash on Delivery" then "Offline" else "Online" }

/-- `customers["first_name"] + " " + customers["last_name"]` on nullable
columns (null propagates). -/
def fullNameOf (c : ProductionCustomer) : Option String :=
  match c.first_name, c.last_name with
  | some f, some l => some (f ++ " " ++ l)
  | _, _ => none

/-- Dimension build for customers: full production snapshot with the SCD2
bookkeeping fields stamped `effective_date = today`, `end_date = null`,
`is_current = true`, serial keys from `firstKey`. -/
def dimCustomers (firstKey : Nat) (today : Int) (prod : ProductionDB) :
    List DimCustomerRow :=
  (withKeys firstKey prod.customers).map fun kc =>
    { customer_key := kc.1
      customer_id := kc.2.customer_id
      full_name := fullNameOf kc.2
      email := kc.2.email
      city := kc.2.city
      state := kc.2.state
      country := kc.2.country
      age_group := kc.2.age_group
      registration_date := kc.2.registration_date
      effective_date := today
      end_date := none
      is_current := true }

/-- The `price_range` bucketing of `load_warehouse.py`. -/
def priceRange (price : Rat) : String :=
  if price < 50 then "Budget" else if price < 200 then "Mid-range" else "Premium"

/-- Dimension build for products, analogous to `dimCustomers`. -/
def dimProducts (firstKey : Nat) (today : Int) (prod : ProductionDB) :
    List DimProductRow :=
  (withKeys firstKey prod.products).map fun kp =>
    { product_key := kp.1
      product_id := kp.2.product_id
      product_name := kp.2.product_name
      category := kp.2.category
      sub_category := kp.2.sub_category
      brand := kp.2.brand
      price_range := priceRange kp.2.price
      effective_date := today
      end_date := none
      is_current := true }

/-- Row shape of the fact-assembly SQL join, before surrogate-key merges. -/
structure FactJoinRow where
  transaction_id : String
  quantity : Rat
  unit_price : Rat
  discount_percentage : Rat
  line_total : Rat
  profit : Rat
  transaction_date : Int
  payment_method : String
  customer_id : String
  product_id : String
  date_key : Int
  discount_amount : Rat
deriving DecidableEq

/-- The fact-assembly SQL query
`transaction_items JOIN transactions JOIN products` with the derived
`profit`, followed by the `date_key` and `discount_amount` column adds. -/
def factJoin (prod : ProductionDB) : List FactJoinRow :=
  prod.transaction_items.flatMap fun ti =>
    ((prod.transactions.filter fun t =>
        decide (ti.transaction_id = t.transaction_id)).flatMap fun t =>
      ((prod.products.filter fun p =>
          decide (ti.product_id = p.product_id)).map fun p =>
        { transaction_id := ti.transaction_id
          quantity := ti.quantity
          unit_price := ti.unit_price
          discount_percentage := ti.discount_percentage
          line_total := ti.line_total
          profit := ti.line_total - p.cost * ti.quantity
          transaction_date := t.transaction_date
          payment_method := t.payment_method
          customer_id := t.customer_id
          product_id := ti.product_id
          date_key := dateKeyOf t.transaction_date
          discount_amount :=
            ti.unit_price * ti.quantity * (ti.discount_percentage / 100) }))

/-- The three pandas `merge` inner joins against the current dimension
snapshots, then the final column projection to the fact-table shape. -/
def factRows (prod : ProductionDB) (dimC : List DimCustomerRow)
    (dimP : List DimProductRow) (dimPM : List DimPaymentMethodRow) :
    List FactSalesRow :=
  ((((factJoin prod).flatMap fun r =>
      ((dimC.filter fun dc => dc.is_current).filter
          fun dc => decide (r.customer_id = dc.customer_id)).map
        fun dc => (r, dc.customer_key)).flatMap fun rc =>
    ((dimP.filter fun dp => dp.is_current).filter
        fun dp => decide (rc.1.product_id = dp.product_id)).map
      fun dp => (rc.1, rc.2, dp.product_key)).flatMap fun rcp =>
    (dimPM.filter fun pm =>
        decide (rcp.1.payment_method = pm.payment_method_name)).map
      fun pm =>
        { date_key := rcp.1.date_key
          customer_key := rcp.2.1
          product_key := rcp.2.2
          payment_method_key := pm.payment_method_key
          transaction_id := rcp.1.transaction_id
          quantity := rcp.1.quantity
          unit_price := rcp.1.unit_price
          discount_amount := rcp.1.discount_amount
          line_total := rcp.1.line_total
          profit := rcp.1.profit })

/-- The `INSERT INTO warehouse.agg_daily_sales … GROUP BY date_key` query:
one output row per distinct `date_key` of the fact table. -/
def aggDailySales (fact : List FactSalesRow) : List AggDailySalesRow :=
  (distinct (fact.map FactSalesRow.date_key)).map fun k =>
    let rows := fact.filter fun r => decide (r.date_key = k)
    { date_key := k
      total_transactions := (distinct (rows.map FactSalesRow.transaction_id)).length
      total_revenue := (rows.map FactSalesRow.line_total).sum
      total_profit := (rows.map FactSalesRow.profit).sum
      unique_customers := (distinct (rows.map FactSalesRow.customer_key)).length }

/-- `datetime(2024, 1, 1).date()` as a serial day. -/
def dimDateStart : Int := daysFromCivil 2024 1 1

/-- `datetime(2024, 12, 31).date()` as a serial day. -/
def dimDateEnd : Int := daysFromCivil 2024 12 31

/-- The write sequence of the warehouse load, in program order; `today` is
the run date (`datetime.utcnow().date()`). Surrogate keys continue from the
current table length at insert time (serial columns). -/
def warehouseWrites (today : Int) : List (Database → Database) :=
  [ fun db => { db with warehouse.dim_date := [] },
    fun db =>
      { db with warehouse.dim_date :=
          db.warehouse.dim_date ++ buildDimDate dimDateStart dimDateEnd },
    fun db => { db with warehouse.dim_payment_method := [] },
    fun db =>
      { db with warehouse.dim_payment_method :=
          (db.warehouse.dim_payment_method ++
            dimPaymentMethods (db.warehouse.dim_payment_method.length + 1)
              db.production) },
    fun db => { db with warehouse.dim_customers := [] },
    fun db =>
      { db with warehouse.dim_customers :=
          (db.warehouse.dim_customers ++
            dimCustomers (db.warehouse.dim_customers.length + 1) today
              db.production) },
    fun db => { db with warehouse.dim_products := [] },
    fun db =>
      { db with warehouse.dim_products :=
          (db.warehouse.dim_products ++
            dimProducts (db.warehouse.dim_products.length + 1) today
              db.production) },
    fun db => { db with warehouse.fact_sales := [] },
    fun db =>
      { db with warehouse.fact_sales :=
          (db.warehouse.fact_sales ++
            factRows db.production db.warehouse.dim_customers
              db.warehouse.dim_products db.warehouse.dim_payment_method) },
    fun db => { db with warehouse.agg_daily_sales := [] },
    fun db =>
      { db with warehouse.agg_daily_sales :=
          (db.warehouse.agg_daily_sales ++
            aggDailySales db.warehouse.fact_sales) } ]

/-- One run of the warehouse load (no injected error). -/
def runWarehouse (today : Int) (db : Database) : Database :=
  runStageTx db (warehouseWrites today) none

/-! ### General lemmas about the embedding -/

theorem execTx_nil {σ : Type} (committed working : σ) (i : Nat)
    (errStep : Option Nat) : execTx committed working [] i errStep = working :=
  rfl

theorem execTx_cons_none {σ : Type} (committed working : σ) (w : σ → σ)
    (rest : List (σ → σ)) (i : Nat) :
    execTx committed working (w :: rest) i none =
      execTx committed (w working) rest (i + 1) none := by
  simp [execTx]

/-- Closed form of one (error-free) cleansing-stage run: customers and
products are truncate-reloaded from the cleansed staging snapshot,
transactions and transaction items get exactly the key-filtered new rows
appended; staging and warehouse are untouched. -/
theorem runCleansing_eq (db : Database) :
    runCleansing db =
      { db with production :=
          { customers := cleanseCustomers db.staging.customers
            products := cleanseProducts db.staging.products
            transactions :=
              db.production.transactions ++
                keptTransactions db.staging.transactions db.production.transactions
            transaction_items :=
              db.production.transaction_items ++
                keptItems db.staging.transaction_items
                  db.production.transaction_items } } :=
  rfl

/-- Closed form of one (error-free) warehouse-load run: every warehouse
table is truncate-reloaded; the fact merges read the dimension snapshots
written earlier in the same transaction (surrogate keys start at 1 because
each dimension was truncated first). -/
theorem runWarehouse_eq (today : Int) (db : Database) :
    runWarehouse today db =
      { db with warehouse :=
          { dim_date := buildDimDate dimDateStart dimDateEnd
            dim_payment_method := dimPaymentMethods 1 db.production
            dim_customers := dimCustomers 1 today db.production
            dim_products := dimProducts 1 today db.production
            fact_sales :=
              factRows db.production (dimCustomers 1 today db.production)
                (dimProducts 1 today db.production)
                (dimPaymentMethods 1 db.production)
            agg_daily_sales :=
              aggDailySales
                (factRows db.production (dimCustomers 1 today db.production)
                  (dimProducts 1 today db.production)
                  (dimPaymentMethods 1 db.production)) } } :=
  rfl

theorem length_flatMap_one {α β : Type} {l : List α} {f : α → List β}
    (h : ∀ x ∈ l, (f x).length = 1) : (l.flatMap f).length = l.length := by
  induction l with
  | nil => rfl
  | cons x xs ih =>
    rw [List.flatMap_cons, List.length_append, h x (List.mem_cons_self x xs),
      ih fun y hy => h y (List.mem_cons_of_mem x hy), List.length_cons,
      Nat.add_comm]

theorem length_flatMap_filter_map_one {α β γ : Type} {l : List α}
    {d : α → List β} {p : α → β → Bool} {g : α → β → γ}
    (h : ∀ x ∈ l, ((d x).filter (p x)).length = 1) :
    (l.flatMap fun x => ((d x).filter (p x)).map (g x)).length = l.length := by
  apply length_flatMap_one
  intro x hx
  rw [List.length_map]
  exact h x hx

theorem mem_distinctAux {α : Type} [DecidableEq α] {x : α} :
    ∀ (seen l : List α), x ∈ distinctAux seen l ↔ x ∈ l ∧ x ∉ seen := by
  intro seen l
  induction l generalizing seen with
  | nil => simp [distinctAux]
  | cons y ys ih =>
    by_cases hy : y ∈ seen
    · rw [distinctAux, if_pos hy, ih]
      constructor
      · rintro ⟨h1, h2⟩
        exact ⟨List.mem_cons_of_mem _ h1, h2⟩
      · rintro ⟨h1, h2⟩
        rcases List.mem_cons.mp h1 with h1 | h1
        · exact absurd (h1 ▸ hy) h2
        · exact ⟨h1, h2⟩
    · rw [distinctAux, if_neg hy]
      rcases Decidable.em (x = y) with hxy | hxy
      · subst hxy
        simp [hy]
      · constructor
        · intro hmem
          rcases List.mem_cons.mp hmem with h | h
          · exact absurd h hxy
          · rcases (ih (y :: seen)).mp h with ⟨h1, h2⟩
            exact ⟨List.mem_cons_of_mem _ h1, fun hs => h2 (List.mem_cons_of_mem _ hs)⟩
        · rintro ⟨h1, h2⟩
          rcases List.mem_cons.mp h1 with h | h
          · exact absurd h hxy
          · exact List.mem_cons_of_mem _
              ((ih (y :: seen)).mpr ⟨h, fun hs =>
                (List.mem_cons.mp hs).elim hxy h2⟩)

theorem mem_distinct {α : Type} [DecidableEq α] {x : α} (l : List α) :
    x ∈ distinct l ↔ x ∈ l := by
  rw [distinct, mem_distinctAux]
  simp

theorem nodup_distinctAux {α : Type} [DecidableEq α] :
    ∀ (seen l : List α), (distinctAux seen l).Nodup := by
  intro seen l
  induction l generalizing seen with
  | nil => exact List.nodup_nil
  | cons y ys ih =>
    by_cases hy : y ∈ seen
    · rw [distinctAux, if_pos hy]
      exact ih seen
    · rw [distinctAux, if_neg hy]
      refine List.nodup_cons.mpr ⟨fun hmem => ?_, ih (y :: seen)⟩
      exact ((mem_distinctAux (y :: seen) ys).mp hmem).2 (List.mem_cons_self y seen)

theorem nodup_distinct {α : Type} [DecidableEq α] (l : List α) :
    (distinct l).Nodup :=
  nodup_distinctAux [] l

theorem countP_withKeys {α : Type} (p : α → Bool) :
    ∀ (k : Nat) (l : List α),
      (withKeys k l).countP (fun kx => p kx.2) = l.countP p := by
  intro k l
  induction l generalizing k with
  | nil => rfl
  | cons x xs ih => simp [withKeys, List.countP_cons, ih]

/-- Re-filtering a staging snapshot against production after its kept rows
were appended finds no new transaction keys. -/
theorem keptTransactions_append_kept (S : List StagingTransaction)
    (E : List ProductionTransaction) :
    keptTransactions S (E ++ keptTransactions S E) = [] := by
  rw [keptTransactions, List.map_eq_nil_iff, List.filter_eq_nil_iff]
  intro t ht
  simp only [decide_eq_true_iff, not_not, List.map_append, List.mem_append]
  by_cases h : t.transaction_id ∈
      E.map ProductionTransaction.transaction_id
  · exact Or.inl h
  · refine Or.inr ?_
    have htk : toProductionTransaction t ∈ keptTransactions S E := by
      rw [keptTransactions]
      exact List.mem_map_of_mem _
        (List.mem_filter.mpr ⟨ht, decide_eq_true_iff.mpr h⟩)
    exact List.mem_map_of_mem ProductionTransaction.transaction_id htk

/-- Analogue of `keptTransactions_append_kept` for transaction items. -/
theorem keptItems_append_kept (S : List StagingTransactionItem)
    (E : List ProductionTransactionItem) :
    keptItems S (E ++ keptItems S E) = [] := by
  rw [keptItems, List.map_eq_nil_iff, List.filter_eq_nil_iff]
  intro it hit
  simp only [decide_eq_true_iff, not_not, List.map_append, List.mem_append]
  by_cases h : it.item_id ∈ E.map ProductionTransactionItem.item_id
  · exact Or.inl h
  · refine Or.inr ?_
    have hik : toProductionItem it ∈ keptItems S E := by
      rw [keptItems]
      exact List.mem_map_of_mem _
        (List.mem_filter.mpr ⟨hit, decide_eq_true_iff.mpr h⟩)
    exact List.mem_map_of_mem ProductionTransactionItem.item_id hik

/-! ### Claims -/

/-- Claim C1: the append-only merge is idempotent — after one cleansing run,
a second run with the unchanged staging snapshot computes an empty key-set
difference for transactions and transaction items, so it inserts zero rows
and production is unchanged. -/
theorem claim_c1_append_only_idempotent (db : Database) :
    keptTransactions db.staging.transactions
        (runCleansing db).production.transactions = [] ∧
    keptItems db.staging.transaction_items
        (runCleansing db).production.transaction_items = [] ∧
    (runCleansing (runCleansing db)).production.transactions =
      (runCleansing db).production.transactions ∧
    (runCleansing (runCleansing db)).production.transaction_items =
      (runCleansing db).production.transaction_items := by
  refine ⟨keptTransactions_append_kept _ _, keptItems_append_kept _ _, ?_, ?_⟩
  · show (db.production.transactions ++
        keptTransactions db.staging.transactions db.production.transactions) ++
      keptTransactions db.staging.transactions
        (db.production.transactions ++
          keptTransactions db.staging.transactions db.production.transactions) =
      db.production.transactions ++
        keptTransactions db.staging.transactions db.production.transactions
    rw [keptTransactions_append_kept, List.append_nil]
  · show (db.production.transaction_items ++
        keptItems db.staging.transaction_items db.production.transaction_items) ++
      keptItems db.staging.transaction_items
        (db.production.transaction_items ++
          keptItems db.staging.transaction_items
            db.production.transaction_items) =
      db.production.transaction_items ++
        keptItems db.staging.transaction_items db.production.transaction_items
    rw [keptItems_append_kept, List.append_nil]

/-- Claim C2: replace-policy determinism — after the cleansing stage,
production customers/products are exactly the cleansed staging snapshot,
with no dependence on the prior production contents. -/
theorem claim_c2_replace_policy_deterministic (db : Database) :
    (runCleansing db).production.customers =
        cleanseCustomers db.staging.customers ∧
    (runCleansing db).production.products =
        cleanseProducts db.staging.products ∧
    ∀ db' : Database, db'.staging = db.staging →
      (runCleansing db').production.customers =
          (runCleansing db).production.customers ∧
      (runCleansing db').production.products =
          (runCleansing db).production.products := by
  refine ⟨rfl, rfl, fun db' h => ⟨?_, ?_⟩⟩
  · show cleanseCustomers db'.staging.customers =
      cleanseCustomers db.staging.customers
    rw [h]
  · show cleanseProducts db'.staging.products =
      cleanseProducts db.staging.products
    rw [h]

/-- Claim C3: validation invariant — after a cleansing run every production
product satisfies `price > 0` and `cost < price`; newly written transaction
and item rows always satisfy `total_amount > 0` / `quantity > 0`, and if the
prior production rows satisfied those rules, all rows after the run do. -/
theorem claim_c3_validation_invariant (db : Database) :
    (∀ p ∈ (runCleansing db).production.products,
        0 < p.price ∧ p.cost < p.price) ∧
    (∀ t ∈ keptTransactions db.staging.transactions db.production.transactions,
        0 < t.total_amount) ∧
    (∀ it ∈ keptItems db.staging.transaction_items
        db.production.transaction_items, 0 < it.quantity) ∧
    ((∀ t ∈ db.production.transactions, 0 < t.total_amount) →
      ∀ t ∈ (runCleansing db).production.transactions, 0 < t.total_amount) ∧
    ((∀ it ∈ db.production.transaction_items, 0 < it.quantity) →
      ∀ it ∈ (runCleansing db).production.transaction_items,
        0 < it.quantity) := by
  have hprod : ∀ p ∈ (runCleansing db).production.products,
      0 < p.price ∧ p.cost < p.price := by
    intro p hp
    change p ∈ cleanseProducts db.staging.products at hp
    rw [cleanseProducts] at hp
    obtain ⟨q, hq, rfl⟩ := List.mem_map.mp hp
    obtain ⟨hq1, hq2⟩ := List.mem_filter.mp hq
    obtain ⟨_, hq3⟩ := List.mem_filter.mp hq1
    exact ⟨decide_eq_true_iff.mp hq3, decide_eq_true_iff.mp hq2⟩
  have htx : ∀ t ∈ keptTransactions db.staging.transactions
      db.production.transactions, 0 < t.total_amount := by
    intro t ht
    rw [keptTransactions] at ht
    obtain ⟨q, hq, rfl⟩ := List.mem_map.mp ht
    obtain ⟨hq1, _⟩ := List.mem_filter.mp hq
    obtain ⟨_, hq3⟩ := List.mem_filter.mp hq1
    exact decide_eq_true_iff.mp hq3
  have hit : ∀ it ∈ keptItems db.staging.transaction_items
      db.production.transaction_items, 0 < it.quantity := by
    intro it hi
    rw [keptItems] at hi
    obtain ⟨q, hq, rfl⟩ := List.mem_map.mp hi
    obtain ⟨hq1, _⟩ := List.mem_filter.mp hq
    obtain ⟨_, hq3⟩ := List.mem_filter.mp hq1
    exact decide_eq_true_iff.mp hq3
  refine ⟨hprod, htx, hit, ?_, ?_⟩
  · intro hpre t ht
    change t ∈ db.production.transactions ++
      keptTransactions db.staging.transactions db.production.transactions at ht
    rcases List.mem_append.mp ht with h | h
    · exact hpre t h
    · exact htx t h
  · intro hpre it hi
    change it ∈ db.production.transaction_items ++
      keptItems db.staging.transaction_items
        db.production.transaction_items at hi
    rcases List.mem_append.mp hi with h | h
    · exact hpre it h
    · exact hit it h

/-! ### Concrete sample data for witnesses and counterexamples -/

def emptyStaging : StagingDB :=
  { customers := [], products := [], transactions := [], transaction_items := [] }

def emptyProduction : ProductionDB :=
  { customers := [], products := [], transactions := [], transaction_items := [] }

def emptyWarehouse : WarehouseDB :=
  { dim_date := [], dim_payment_method := [], dim_customers := [],
    dim_products := [], fact_sales := [], agg_daily_sales := [] }

def sampleStagingCustomer (i : String) (em : Option String) : StagingCustomer :=
  { customer_id := i, first_name := some " Ada ", last_name := some "Lovelace",
    email := em, phone := some "555", registration_date := 19000,
    city := some "Pune", state := some "MH", country := some "India",
    age_group := some "26-35", loaded_at := 0 }

def sampleStagingProduct (i : String) (price cost : Rat) : StagingProduct :=
  { product_id := i, product_name := "Widget", category := "Electronics",
    sub_category := "Gadget", price := price, cost := cost, brand := "Acme",
    stock_quantity := 5, supplier_id := "SUP001", loaded_at := 0 }

def sampleStagingTransaction (i : String) (amount : Rat) : StagingTransaction :=
  { transaction_id := i, customer_id := "CUST0001",
    transaction_date := 19723, transaction_time := "10:00:00",
    payment_method := "UPI", shipping_address := "1 Main St",
    total_amount := amount, loaded_at := 0 }

def sampleStagingItem (i ti pi : String) (q : Rat) : StagingTransactionItem :=
  { item_id := i, transaction_id := ti, product_id := pi, quantity := q,
    unit_price := 10, discount_percentage := 0, line_total := 10 * q,
    loaded_at := 0 }

def sampleProductionCustomer (i : String) : ProductionCustomer :=
  { customer_id := i, first_name := some "Ada", last_name := some "Lovelace",
    email := some "ada@example.com", phone := some "555",
    registration_date := 19000, city := some "Pune", state := some "MH",
    country := some "India", age_group := some "26-35" }

def sampleProductionProduct (i : String) (price cost : Rat) : ProductionProduct :=
  { product_id := i, product_name := "Widget", category := "Electronics",
    sub_category := "Gadget", price := price, cost := cost, brand := "Acme",
    stock_quantity := 5, supplier_id := "SUP001" }

def sampleProductionTransaction (i cid pm : String) (amount : Rat) :
    ProductionTransaction :=
  { transaction_id := i, customer_id := cid, transaction_date := 19723,
    transaction_time := "10:00:00", payment_method := pm,
    shipping_address := "1 Main St", total_amount := amount }

def sampleProductionItem (i ti pi : String) (q : Rat) :
    ProductionTransactionItem :=
  { item_id := i, transaction_id := ti, product_id := pi, quantity := q,
    unit_price := 10, discount_percentage := 0, line_total := 10 * q }

/-- A database with one prior production transaction/item and a staging
snapshot containing one valid and one rule-violating row per table. -/
def c3Db : Database :=
  { staging :=
      { customers := [sampleStagingCustomer "CUST0001" (some " A@B.com ")],
        products := [sampleStagingProduct "PROD0001" 10 4,
          sampleStagingProduct "PROD0002" 0 0],
        transactions := [sampleStagingTransaction "TXN00002" 25,
          sampleStagingTransaction "TXN00003" 0],
        transaction_items := [sampleStagingItem "ITEM00002" "TXN00002" "PROD0001" 2,
          sampleStagingItem "ITEM00003" "TXN00002" "PROD0001" 0] },
    production :=
      { customers := [], products := [],
        transactions := [sampleProductionTransaction "TXN00001" "CUST0001" "UPI" 30],
        transaction_items := [sampleProductionItem "ITEM00001" "TXN00001" "PROD0001" 3] },
    warehouse := emptyWarehouse }

/-- Witness for claim C3 at `c3Db`. -/
theorem claim_c3_validation_invariant_witness :
    ((∀ t ∈ c3Db.production.transactions, 0 < t.total_amount) ∧
      (∀ it ∈ c3Db.production.transaction_items, 0 < it.quantity)) ∧
    (∀ p ∈ (runCleansing c3Db).production.products,
        0 < p.price ∧ p.cost < p.price) ∧
    (∀ t ∈ (runCleansing c3Db).production.transactions, 0 < t.total_amount) ∧
    (∀ it ∈ (runCleansing c3Db).production.transaction_items,
        0 < it.quantity) :=
  ⟨⟨by decide, by decide⟩,
    (claim_c3_validation_invariant c3Db).1,
    (claim_c3_validation_invariant c3Db).2.2.2.1 (by decide),
    (claim_c3_validation_invariant c3Db).2.2.2.2 (by decide)⟩

/-- Staging snapshot of claim C5's scenario: exactly one product row with
`price = 0`, the other passing validation. -/
def c5Db : Database :=
  { staging :=
      { customers := [], transactions := [], transaction_items := [],
        products := [sampleStagingProduct "PROD0001" 10 4,
          sampleStagingProduct "PROD0002" 0 0] },
    production := emptyProduction,
    warehouse := emptyWarehouse }

/-- Claim C5 (code behavior at the claimed scenario): the `price = 0` row is
indeed absent from production.products after the run, but the run summary
reports `filtered = 0` — not `1` as the claim requires — because the script
hard-codes `filtered: 0` and measures `input` on the already-filtered
dataframe (`input = output = 1` here, so even `input - output = 0`). -/
theorem claim_c5_filtered_count_code_behavior :
    (runCleansing c5Db).production.products.map ProductionProduct.product_id
        = ["PROD0001"] ∧
    (cleansingSummary c5Db.staging c5Db.production).products.filtered = 0 ∧
    (cleansingSummary c5Db.staging c5Db.production).products.input = 1 ∧
    (cleansingSummary c5Db.staging c5Db.production).products.output = 1 ∧
    (cleansingSummary c5Db.staging c5Db.production).products.filtered ≠ 1 := by
  refine ⟨?_, rfl, rfl, rfl, by decide⟩
  decide

/-- Witness for claim C2: two databases sharing a staging snapshot but with
different prior production contents end with identical production
customers/products. -/
theorem claim_c2_replace_policy_deterministic_witness :
    ({ c5Db with production := c3Db.production } : Database).staging =
        c5Db.staging ∧
    (runCleansing { c5Db with production := c3Db.production }).production.customers =
        (runCleansing c5Db).production.customers ∧
    (runCleansing { c5Db with production := c3Db.production }).production.products =
        (runCleansing c5Db).production.products :=
  ⟨rfl,
    ((claim_c2_replace_policy_deterministic c5Db).2.2
      { c5Db with production := c3Db.production } rfl).1,
    ((claim_c2_replace_policy_deterministic c5Db).2.2
      { c5Db with production := c3Db.production } rfl).2⟩

/-- Claim C8: null passthrough of text normalization — the cleansing helpers
are total, trim `first_name`/`last_name`, lowercase-and-trim the email, and
map a null value to null. -/
theorem claim_c8_null_passthrough (c : StagingCustomer) :
    clean_text none = none ∧
    clean_email none = none ∧
    (cleanseCustomer c).first_name = c.first_name.map String.trim ∧
    (cleanseCustomer c).last_name = c.last_name.map String.trim ∧
    (c.email = none → (cleanseCustomer c).email = none) ∧
    (∀ s, c.email = some s → s ≠ "" →
      (cleanseCustomer c).email = some (s.trim.toLower)) := by
  refine ⟨rfl, rfl, ?_, ?_, ?_, ?_⟩
  · show clean_text c.first_name = c.first_name.map String.trim
    cases c.first_name <;> rfl
  · show clean_text c.last_name = c.last_name.map String.trim
    cases c.last_name <;> rfl
  · intro h
    show clean_email c.email = none
    rw [h]
    rfl
  · intro s hs hne
    show clean_email c.email = some (s.trim.toLower)
    rw [hs, clean_email, if_neg hne]
    rfl

/-- Witness for claim C8 at a concrete row with a null email. -/
theorem claim_c8_null_passthrough_witness :
    (sampleStagingCustomer "CUST0001" none).email = none ∧
    (cleanseCustomer (sampleStagingCustomer "CUST0001" none)).email = none :=
  ⟨rfl, (claim_c8_null_passthrough (sampleStagingCustomer "CUST0001" none)).2.2.2.2.1 rfl⟩

/-- Staging snapshot with two fresh rows sharing one `transaction_id` and
two fresh rows sharing one `item_id`. -/
def c10Db : Database :=
  { staging :=
      { customers := [], products := [],
        transactions := [sampleStagingTransaction "TXN00001" 10,
          sampleStagingTransaction "TXN00001" 20],
        transaction_items := [sampleStagingItem "ITEM00001" "TXN00001" "PROD0001" 1,
          sampleStagingItem "ITEM00001" "TXN00001" "PROD0001" 2] },
    production := emptyProduction,
    warehouse := emptyWarehouse }

/-- Claim C10: the append-only merge deduplicates only against existing
production keys, not within the staging batch — a single run inserts both
same-key rows, violating one-row-per-key in production. -/
theorem claim_c10_no_within_batch_dedup :
    (runCleansing c10Db).production.transactions.map
        ProductionTransaction.transaction_id = ["TXN00001", "TXN00001"] ∧
    ¬ ((runCleansing c10Db).production.transactions.map
        ProductionTransaction.transaction_id).Nodup ∧
    (runCleansing c10Db).production.transaction_items.map
        ProductionTransactionItem.item_id = ["ITEM00001", "ITEM00001"] ∧
    ¬ ((runCleansing c10Db).production.transaction_items.map
        ProductionTransactionItem.item_id).Nodup := by
  refine ⟨by decide, by decide, by decide, by decide⟩

/-- An unhandled error at any write index within the list aborts the
transaction: the committed state is returned unchanged, no matter how many
writes already ran. -/
theorem execTx_abort {σ : Type} :
    ∀ (ws : List (σ → σ)) (committed working : σ) (i k : Nat),
      i ≤ k → k < i + ws.length →
      execTx committed working ws i (some k) = committed := by
  intro ws
  induction ws with
  | nil =>
    intro committed working i k hik hk
    exfalso
    simp only [List.length_nil] at hk
    omega
  | cons w rest ih =>
    intro committed working i k hik hk
    rw [execTx]
    by_cases hke : (some k : Option Nat) = some i
    · rw [if_pos hke]
    · rw [if_neg hke]
      have hne : k ≠ i := fun h => hke (by rw [h])
      refine ih committed (w working) (i + 1) k (by omega) ?_
      simp only [List.length_cons] at hk
      omega

/-- Claim C9: stage atomicity — each stage's truncates and inserts run in
one database transaction, so an unhandled error at any write of the
cleansing stage or of the warehouse load leaves the previously committed
state of every table unchanged. -/
theorem claim_c9_stage_atomicity (db : Database) (today : Int) (k : Nat) :
    (k < cleansingWrites.length →
      runStageTx db cleansingWrites (some k) = db) ∧
    (k < (warehouseWrites today).length →
      runStageTx db (warehouseWrites today) (some k) = db) := by
  constructor
  · intro hk
    exact execTx_abort cleansingWrites db db 0 k (Nat.zero_le k) (by omega)
  · intro hk
    exact execTx_abort (warehouseWrites today) db db 0 k (Nat.zero_le k)
      (by omega)

/-- Witness for claim C9: an error injected at the fourth write of either
stage leaves `c3Db` unchanged. -/
theorem claim_c9_stage_atomicity_witness :
    (3 < cleansingWrites.length ∧
      runStageTx c3Db cleansingWrites (some 3) = c3Db) ∧
    (3 < (warehouseWrites 20000).length ∧
      runStageTx c3Db (warehouseWrites 20000) (some 3) = c3Db) :=
  ⟨⟨by decide, (claim_c9_stage_atomicity c3Db 20000 3).1 (by decide)⟩,
    ⟨by decide, (claim_c9_stage_atomicity c3Db 20000 3).2 (by decide)⟩⟩

theorem buildDimDateLoop_full_date :
    ∀ (n : Nat) (s e : Int), (e - s + 1).toNat = n →
      (buildDimDateLoop n s e).map DimDateRow.full_date =
        (List.range n).map (fun i : Nat => s + (i : Int)) := by
  intro n
  induction n with
  | zero => intro s e _; rfl
  | succ n ih =>
    intro s e hn
    have hse : s ≤ e := by omega
    rw [buildDimDateLoop, if_pos hse, List.map_cons,
      List.range_succ_eq_map, List.map_cons, List.map_map,
      ih (s + 1) e (by omega)]
    refine congrArg₂ List.cons ?_ ?_
    · show s = s + ((0 : Nat) : Int)
      norm_num
    refine List.map_congr_left fun i _ => ?_
    show s + 1 + (i : Int) = s + ((i : Nat).succ : Int)
    push_cast
    ring

theorem mem_buildDimDateLoop {r : DimDateRow} :
    ∀ {n : Nat} {c e : Int}, r ∈ buildDimDateLoop n c e →
      ∃ z : Int, r = dimDateRow z := by
  intro n
  induction n with
  | zero => intro c e h; exact absurd h (List.not_mem_nil r)
  | succ n ih =>
    intro c e h
    rw [buildDimDateLoop] at h
    by_cases hce : c ≤ e
    · rw [if_pos hce] at h
      rcases List.mem_cons.mp h with h | h
      · exact ⟨c, h⟩
      · exact ih h
    · rw [if_neg hce] at h
      exact absurd h (List.not_mem_nil r)

theorem dimDateRow_weekend (z : Int) :
    (dimDateRow z).is_weekend = true ↔
      ((dimDateRow z).day_name = "Saturday" ∨
        (dimDateRow z).day_name = "Sunday") := by
  show decide (5 ≤ pyWeekday z) = true ↔
    (dayNameOf z = "Saturday" ∨ dayNameOf z = "Sunday")
  rw [dayNameOf]
  have h0 : 0 ≤ pyWeekday z := Int.emod_nonneg _ (by norm_num)
  have h7 : pyWeekday z < 7 := Int.emod_lt_of_pos _ (by norm_num)
  set w : Int := pyWeekday z with hw
  interval_cases w <;> decide

/-- Claim C7: `build_dim_date` produces exactly one row per calendar day of
`[start, end]` inclusive (the `full_date` column runs through the serial
days in order, so the row count is `end - start + 1`), with
`quarter = (month - 1) // 3 + 1` and `is_weekend` true exactly on Saturdays
and Sundays. -/
theorem claim_c7_dim_date_generation (s e : Int) (h : s ≤ e) :
    (buildDimDate s e).map DimDateRow.full_date =
        ((List.range (e - s + 1).toNat).map (fun i : Nat => s + (i : Int))) ∧
    (buildDimDate s e).length = (e - s + 1).toNat ∧
    ∀ r ∈ buildDimDate s e,
      r.quarter = (r.month - 1) / 3 + 1 ∧
      (r.is_weekend = true ↔
        (r.day_name = "Saturday" ∨ r.day_name = "Sunday")) := by
  have hmap := buildDimDateLoop_full_date (e - s + 1).toNat s e rfl
  refine ⟨hmap, ?_, ?_⟩
  · have := congrArg List.length hmap
    simpa [buildDimDate] using this
  · intro r hr
    obtain ⟨z, rfl⟩ := mem_buildDimDateLoop hr
    exact ⟨rfl, dimDateRow_weekend z⟩

/-- Witness for claim C7 on the serial range of 2024-01-01..2024-01-03
(three rows, no weekend days), plus the weekend flag on the known Saturday
2024-01-06. -/
theorem claim_c7_dim_date_generation_witness :
    (daysFromCivil 2024 1 1 ≤ daysFromCivil 2024 1 3) ∧
    ((buildDimDate (daysFromCivil 2024 1 1) (daysFromCivil 2024 1 3)).length =
      (daysFromCivil 2024 1 3 - daysFromCivil 2024 1 1 + 1).toNat ∧
      ∀ r ∈ buildDimDate (daysFromCivil 2024 1 1) (daysFromCivil 2024 1 3),
        r.quarter = (r.month - 1) / 3 + 1 ∧
        (r.is_weekend = true ↔
          (r.day_name = "Saturday" ∨ r.day_name = "Sunday"))) ∧
    (buildDimDate (daysFromCivil 2024 1 1) (daysFromCivil 2024 1 3)).length = 3 ∧
    (∀ r ∈ buildDimDate (daysFromCivil 2024 1 1) (daysFromCivil 2024 1 3),
      r.is_weekend = false) ∧
    (dimDateRow (daysFromCivil 2024 1 6)).day_name = "Saturday" ∧
    (dimDateRow (daysFromCivil 2024 1 6)).is_weekend = true :=
  ⟨by decide,
    ⟨(claim_c7_dim_date_generation (daysFromCivil 2024 1 1)
        (daysFromCivil 2024 1 3) (by decide)).2.1,
      (claim_c7_dim_date_generation (daysFromCivil 2024 1 1)
        (daysFromCivil 2024 1 3) (by decide)).2.2⟩,
    by decide, by decide, by decide, by decide⟩

theorem aggDailySales_keys (fact : List FactSalesRow) :
    (aggDailySales fact).map AggDailySalesRow.date_key =
      distinct (fact.map FactSalesRow.date_key) := by
  rw [aggDailySales, List.map_map]
  show (distinct (fact.map FactSalesRow.date_key)).map (fun k : Int => k) =
    distinct (fact.map FactSalesRow.date_key)
  exact List.map_id' _

/-- Claim C6: aggregate correctness — after the warehouse load,
`agg_daily_sales` has exactly one row per distinct `date_key` of
`fact_sales`, and each row's measures are the grouped aggregates (distinct
transaction count, sum of `line_total`, sum of `profit`, distinct customer
count) over the fact rows with that `date_key`; in particular
`total_revenue` equals the sum of `line_total` exactly. -/
theorem claim_c6_aggregate_correctness (today : Int) (db : Database) :
    (runWarehouse today db).warehouse.agg_daily_sales =
        aggDailySales (runWarehouse today db).warehouse.fact_sales ∧
    (((runWarehouse today db).warehouse.agg_daily_sales.map
        AggDailySalesRow.date_key).Nodup) ∧
    (∀ k : Int,
      k ∈ (runWarehouse today db).warehouse.agg_daily_sales.map
          AggDailySalesRow.date_key ↔
        k ∈ (runWarehouse today db).warehouse.fact_sales.map
          FactSalesRow.date_key) ∧
    ∀ a ∈ (runWarehouse today db).warehouse.agg_daily_sales,
      a.total_revenue =
          (((runWarehouse today db).warehouse.fact_sales.filter
              fun r => decide (r.date_key = a.date_key)).map
            FactSalesRow.line_total).sum ∧
      a.total_profit =
          (((runWarehouse today db).warehouse.fact_sales.filter
              fun r => decide (r.date_key = a.date_key)).map
            FactSalesRow.profit).sum ∧
      a.total_transactions =
          (distinct (((runWarehouse today db).warehouse.fact_sales.filter
              fun r => decide (r.date_key = a.date_key)).map
            FactSalesRow.transaction_id)).length ∧
      a.unique_customers =
          (distinct (((runWarehouse today db).warehouse.fact_sales.filter
              fun r => decide (r.date_key = a.date_key)).map
            FactSalesRow.customer_key)).length := by
  set fact : List FactSalesRow :=
    factRows db.production (dimCustomers 1 today db.production)
      (dimProducts 1 today db.production)
      (dimPaymentMethods 1 db.production) with hfact
  have hagg : (runWarehouse today db).warehouse.agg_daily_sales =
      aggDailySales fact := rfl
  have hfs : (runWarehouse today db).warehouse.fact_sales = fact := rfl
  refine ⟨by rw [hagg, hfs], ?_, ?_, ?_⟩
  · rw [hagg, aggDailySales_keys]
    exact nodup_distinct _
  · intro k
    rw [hagg, hfs, aggDailySales_keys]
    exact mem_distinct _
  · intro a ha
    rw [hagg] at ha
    rw [aggDailySales] at ha
    obtain ⟨k, _, rfl⟩ := List.mem_map.mp ha
    rw [hfs]
    exact ⟨rfl, rfl, rfl, rfl⟩

/-- A database yielding two fact rows on one date and one on another. -/
def c6Db : Database :=
  { staging := emptyStaging,
    production :=
      { customers := [sampleProductionCustomer "CUST0001"],
        products := [sampleProductionProduct "PROD0001" 10 4],
        transactions :=
          [sampleProductionTransaction "TXN00001" "CUST0001" "UPI" 30,
            { sampleProductionTransaction "TXN00002" "CUST0001" "Cash on Delivery" 20
                with transaction_date := 19724 }],
        transaction_items :=
          [sampleProductionItem "ITEM00001" "TXN00001" "PROD0001" 1,
            sampleProductionItem "ITEM00002" "TXN00001" "PROD0001" 2,
            sampleProductionItem "ITEM00003" "TXN00002" "PROD0001" 2] },
    warehouse := emptyWarehouse }

/-- Witness for claim C6 at `c6Db`. -/
theorem claim_c6_aggregate_correctness_witness :
    ((runWarehouse 20000 c6Db).warehouse.agg_daily_sales.map
        AggDailySalesRow.date_key).Nodup ∧
    (∀ a ∈ (runWarehouse 20000 c6Db).warehouse.agg_daily_sales,
      a.total_revenue =
          (((runWarehouse 20000 c6Db).warehouse.fact_sales.filter
              fun r => decide (r.date_key = a.date_key)).map
            FactSalesRow.line_total).sum) ∧
    (runWarehouse 20000 c6Db).warehouse.agg_daily_sales.map
        AggDailySalesRow.date_key = [20240101, 20240102] :=
  ⟨(claim_c6_aggregate_correctness 20000 c6Db).2.1,
    fun a ha => ((claim_c6_aggregate_correctness 20000 c6Db).2.2.2 a ha).1,
    by decide⟩

theorem dimProducts_is_current_filter (k : Nat) (today : Int)
    (prod : ProductionDB) :
    (dimProducts k today prod).filter (fun dp => dp.is_current) =
      dimProducts k today prod := by
  apply List.filter_eq_self.mpr
  intro dp hdp
  rw [dimProducts] at hdp
  obtain ⟨kp, _, rfl⟩ := List.mem_map.mp hdp
  rfl

theorem length_filter_dimProducts (k : Nat) (today : Int)
    (prod : ProductionDB) (x : String) :
    ((dimProducts k today prod).filter
        fun dp => decide (x = dp.product_id)).length =
      (prod.products.filter fun p => decide (x = p.product_id)).length := by
  rw [← List.countP_eq_length_filter, ← List.countP_eq_length_filter,
    dimProducts, List.countP_map]
  exact countP_withKeys (fun p => decide (x = p.product_id)) k prod.products

/-- Every joined row's `product_id` comes from some transaction item. -/
theorem factJoin_mem_product {prod : ProductionDB} {r : FactJoinRow}
    (hr : r ∈ factJoin prod) :
    ∃ ti ∈ prod.transaction_items, r.product_id = ti.product_id := by
  rw [factJoin] at hr
  obtain ⟨ti, hti, hr2⟩ := List.mem_flatMap.mp hr
  obtain ⟨t, _, hr3⟩ := List.mem_flatMap.mp hr2
  obtain ⟨p, _, rfl⟩ := List.mem_map.mp hr3
  exact ⟨ti, hti, rfl⟩

/-- If every item matches exactly one transaction row and exactly one
product row, the three-way inner join yields one row per item. -/
theorem factJoin_length (prod : ProductionDB)
    (hT : ∀ ti ∈ prod.transaction_items,
      (prod.transactions.filter
        fun t => decide (ti.transaction_id = t.transaction_id)).length = 1)
    (hPn : ∀ ti ∈ prod.transaction_items,
      (prod.products.filter
        fun p => decide (ti.product_id = p.product_id)).length = 1) :
    (factJoin prod).length = prod.transaction_items.length := by
  rw [factJoin]
  apply length_flatMap_one
  intro ti hti
  calc ((prod.transactions.filter
          fun t => decide (ti.transaction_id = t.transaction_id)).flatMap
        fun t =>
          ((prod.products.filter
              fun p => decide (ti.product_id = p.product_id)).map
            fun p =>
              ({ transaction_id := ti.transaction_id
                 quantity := ti.quantity
                 unit_price := ti.unit_price
                 discount_percentage := ti.discount_percentage
                 line_total := ti.line_total
                 profit := ti.line_total - p.cost * ti.quantity
                 transaction_date := t.transaction_date
                 payment_method := t.payment_method
                 customer_id := t.customer_id
                 product_id := ti.product_id
                 date_key := dateKeyOf t.transaction_date
                 discount_amount :=
                   ti.unit_price * ti.quantity *
                     (ti.discount_percentage / 100) } : FactJoinRow))).length
      = (prod.transactions.filter
          fun t => decide (ti.transaction_id = t.transaction_id)).length := by
        apply length_flatMap_one
        intro t _
        rw [List.length_map]
        exact hPn ti hti
    _ = 1 := hT ti hti

/-- If every joined row matches exactly one current customer dimension row,
one current product dimension row and one payment-method dimension row, the
surrogate-key merges keep one fact row per joined row. -/
theorem factRows_length (prod : ProductionDB) (dimC : List DimCustomerRow)
    (dimP : List DimProductRow) (dimPM : List DimPaymentMethodRow)
    (hCr : ∀ r ∈ factJoin prod,
      (((dimC.filter fun dc => dc.is_current).filter
        fun dc => decide (r.customer_id = dc.customer_id)).length = 1))
    (hPr : ∀ r ∈ factJoin prod,
      (((dimP.filter fun dp => dp.is_current).filter
        fun dp => decide (r.product_id = dp.product_id)).length = 1))
    (hMr : ∀ r ∈ factJoin prod,
      ((dimPM.filter
        fun pm => decide (r.payment_method = pm.payment_method_name)).length = 1)) :
    (factRows prod dimC dimP dimPM).length = (factJoin prod).length := by
  have hm1 : ∀ rc ∈ (factJoin prod).flatMap fun r =>
      ((dimC.filter fun dc => dc.is_current).filter
          fun dc => decide (r.customer_id = dc.customer_id)).map
        fun dc => (r, dc.customer_key),
      rc.1 ∈ factJoin prod := by
    intro rc hrc
    obtain ⟨r, hr, hrc2⟩ := List.mem_flatMap.mp hrc
    obtain ⟨dc, _, rfl⟩ := List.mem_map.mp hrc2
    exact hr
  have hm2 : ∀ rcp ∈ ((factJoin prod).flatMap fun r =>
      ((dimC.filter fun dc => dc.is_current).filter
          fun dc => decide (r.customer_id = dc.customer_id)).map
        fun dc => (r, dc.customer_key)).flatMap fun rc =>
      ((dimP.filter fun dp => dp.is_current).filter
          fun dp => decide (rc.1.product_id = dp.product_id)).map
        fun dp => (rc.1, rc.2, dp.product_key),
      rcp.1 ∈ factJoin prod := by
    intro rcp hrcp
    obtain ⟨rc, hrc, hrcp2⟩ := List.mem_flatMap.mp hrcp
    obtain ⟨dp, _, rfl⟩ := List.mem_map.mp hrcp2
    exact hm1 rc hrc
  rw [factRows,
    length_flatMap_filter_map_one fun rcp hrcp => hMr rcp.1 (hm2 rcp hrcp),
    length_flatMap_filter_map_one fun rc hrc => hPr rc.1 (hm1 rc hrc),
    length_flatMap_filter_map_one fun r hr => hCr r hr]

/-- Claim C4 (amended): fact completeness under clean input — if each
transaction item's `transaction_id` matches exactly one production
transaction row (uniqueness added by the amendment; bare existence is not
enough, see the counterexample) and each referenced product, customer and
payment method has exactly one matching current dimension row, the
warehouse load produces exactly one fact row per transaction item. -/
theorem claim_c4_fact_completeness (today : Int) (db : Database)
    (hT : ∀ ti ∈ db.production.transaction_items,
      (db.production.transactions.filter
        fun t => decide (ti.transaction_id = t.transaction_id)).length = 1)
    (hP : ∀ ti ∈ db.production.transaction_items,
      ((((dimProducts 1 today db.production).filter
          fun dp => dp.is_current).filter
        fun dp => decide (ti.product_id = dp.product_id)).length = 1))
    (hC : ∀ r ∈ factJoin db.production,
      ((((dimCustomers 1 today db.production).filter
          fun dc => dc.is_current).filter
        fun dc => decide (r.customer_id = dc.customer_id)).length = 1))
    (hM : ∀ r ∈ factJoin db.production,
      (((dimPaymentMethods 1 db.production).filter
        fun pm => decide (r.payment_method = pm.payment_method_name)).length
          = 1)) :
    (runWarehouse today db).warehouse.fact_sales.length =
      db.production.transaction_items.length := by
  have hfs : (runWarehouse today db).warehouse.fact_sales =
      factRows db.production (dimCustomers 1 today db.production)
        (dimProducts 1 today db.production)
        (dimPaymentMethods 1 db.production) := rfl
  have hPn : ∀ ti ∈ db.production.transaction_items,
      (db.production.products.filter
        fun p => decide (ti.product_id = p.product_id)).length = 1 := by
    intro ti hti
    have h := hP ti hti
    rw [dimProducts_is_current_filter, length_filter_dimProducts] at h
    exact h
  have hPr : ∀ r ∈ factJoin db.production,
      ((((dimProducts 1 today db.production).filter
          fun dp => dp.is_current).filter
        fun dp => decide (r.product_id = dp.product_id)).length = 1) := by
    intro r hr
    obtain ⟨ti, hti, hpid⟩ := factJoin_mem_product hr
    rw [hpid]
    exact hP ti hti
  rw [hfs, factRows_length db.production _ _ _ hC hPr hM]
  exact factJoin_length db.production hT hPn

/-- A production state with duplicate rows for one `transaction_id`: every
key referenced by the single transaction item exists, and every referenced
customer, product and payment method has exactly one matching current
dimension row, yet the join duplicates the item. -/
def c4DupDb : Database :=
  { staging := emptyStaging,
    production :=
      { customers := [sampleProductionCustomer "CUST0001"],
        products := [sampleProductionProduct "PROD0001" 10 4],
        transactions :=
          [sampleProductionTransaction "TXN00001" "CUST0001" "UPI" 10,
            sampleProductionTransaction "TXN00001" "CUST0001" "UPI" 10],
        transaction_items :=
          [sampleProductionItem "ITEM00001" "TXN00001" "PROD0001" 1] },
    warehouse := emptyWarehouse }

/-- Counterexample to claim C4 as stated: at `c4DupDb` all of the claim's
hypotheses hold — each item's `transaction_id`/`product_id` exists in
production, and each referenced customer, product and payment method has
exactly one matching current dimension row — yet the warehouse load emits
two fact rows for the single transaction item, because mere existence of
the `transaction_id` does not rule out duplicate transaction rows. -/
theorem claim_c4_fact_completeness_counterexample :
    (∀ ti ∈ c4DupDb.production.transaction_items,
      ti.transaction_id ∈ c4DupDb.production.transactions.map
          ProductionTransaction.transaction_id ∧
      ti.product_id ∈ c4DupDb.production.products.map
          ProductionProduct.product_id) ∧
    (∀ ti ∈ c4DupDb.production.transaction_items,
      ((((dimProducts 1 20000 c4DupDb.production).filter
          fun dp => dp.is_current).filter
        fun dp => decide (ti.product_id = dp.product_id)).length = 1)) ∧
    (∀ r ∈ factJoin c4DupDb.production,
      ((((dimCustomers 1 20000 c4DupDb.production).filter
          fun dc => dc.is_current).filter
        fun dc => decide (r.customer_id = dc.customer_id)).length = 1)) ∧
    (∀ r ∈ factJoin c4DupDb.production,
      (((dimPaymentMethods 1 c4DupDb.production).filter
        fun pm => decide (r.payment_method = pm.payment_method_name)).length
          = 1)) ∧
    (runWarehouse 20000 c4DupDb).warehouse.fact_sales.length = 2 ∧
    c4DupDb.production.transaction_items.length = 1 ∧
    (runWarehouse 20000 c4DupDb).warehouse.fact_sales.length ≠
      c4DupDb.production.transaction_items.length := by
  refine ⟨by decide, by decide, by decide, by decide, by decide, by decide,
    by decide⟩

/-- A clean production state: unique keys everywhere, two items on one
transaction. -/
def c4CleanDb : Database :=
  { staging := emptyStaging,
    production :=
      { customers := [sampleProductionCustomer "CUST0001"],
        products := [sampleProductionProduct "PROD0001" 10 4],
        transactions :=
          [sampleProductionTransaction "TXN00001" "CUST0001" "UPI" 30],
        transaction_items :=
          [sampleProductionItem "ITEM00001" "TXN00001" "PROD0001" 1,
            sampleProductionItem "ITEM00002" "TXN00001" "PROD0001" 2] },
    warehouse := emptyWarehouse }

/-- Witness for the amended claim C4 at `c4CleanDb`. -/
theorem claim_c4_fact_completeness_witness :
    (∀ ti ∈ c4CleanDb.production.transaction_items,
      (c4CleanDb.production.transactions.filter
        fun t => decide (ti.transaction_id = t.transaction_id)).length = 1) ∧
    (runWarehouse 20000 c4CleanDb).warehouse.fact_sales.length =
      c4CleanDb.production.transaction_items.length ∧
    c4CleanDb.production.transaction_items.length = 2 :=
  ⟨by decide,
    claim_c4_fact_completeness 20000 c4CleanDb (by decide) (by decide)
      (by decide) (by decide),
    by decide⟩

end ETL
